import Mathlib

/-!
Verification of the Cite backend's ingestion-labeling-retrieval-prompting
core against its specification.  The Python services under
`backend/app/services` (chunk labeling, LLM output validation, prompt
building) and the diversity filter in `backend/app/api/routes.py` are
shallowly embedded as executable Lean definitions; machine strings are
modelled as `String`/`List Char`, Python floats as `ℚ`, and the database
session of `save_label` as an explicit list of rows.
-/

set_option maxRecDepth 100000

namespace Cite

/-! ### Basic string utilities (Python `str` semantics) -/

/-- Whitespace characters recognised by Python's `str.split()`. -/
def pyIsSpace (c : Char) : Bool :=
  c == ' ' || c == '\t' || c == '\n' || c == '\r' || c == '\x0b' || c == '\x0c'

/-- Auxiliary word counter: `inWord` records whether the previous character
was part of a word. -/
def countWordsAux : Bool → List Char → Nat
  | _, [] => 0
  | inWord, c :: rest =>
    if pyIsSpace c then countWordsAux false rest
    else if inWord then countWordsAux true rest
    else 1 + countWordsAux true rest

/-- `len(s.split())` in Python: number of maximal non-whitespace runs. -/
def countWords (s : String) : Nat :=
  countWordsAux false s.toList

/-- ASCII lower-casing of one character, as Python `str.lower` acts on the
ASCII strings used by the services (codepoints 65–90 shift by 32). -/
def pyLowerChar (c : Char) : Char :=
  if 65 ≤ c.toNat && c.toNat ≤ 90 then Char.ofNat (c.toNat + 32) else c

/-- Python `s.lower()` (ASCII fragment). -/
def pyLower (s : String) : String :=
  String.mk (s.toList.map pyLowerChar)

/-- Does `s` start with the literal `n`? -/
def startsWithLit : List Char → List Char → Bool
  | [], _ => true
  | _ :: _, [] => false
  | a :: as, b :: bs => a == b && startsWithLit as bs

/-- Does `s` contain the literal `n` as a contiguous substring
(Python's `n in s`)? -/
def containsSub (n : List Char) : List Char → Bool
  | [] => startsWithLit n []
  | c :: rest => startsWithLit n (c :: rest) || containsSub n rest

/-- Python `needle in hay` on strings. -/
def strContains (hay needle : String) : Bool :=
  containsSub needle.toList hay.toList

/-- Index of the first occurrence of `needle` in `hay`, if any. -/
def subPosAux (n : List Char) : List Char → Nat → Option Nat
  | [], i => if startsWithLit n [] then some i else none
  | c :: rest, i =>
    if startsWithLit n (c :: rest) then some i else subPosAux n rest (i + 1)

/-- First character index of `needle` inside `hay`, if present. -/
def subPos (needle hay : String) : Option Nat :=
  subPosAux needle.toList hay.toList 0

/-! ### Word-boundary literal matching (`re.findall` on the services'
alternation patterns)

Every rhetorical-role regex in `chunk_labeling.py` has the shape
`\b(alt₁|alt₂|…)\b` where each alternative is a literal phrase (after
expanding optional suffixes such as `argues?` into `argues|argue` in the
greedy order Python tries them).  A match therefore is a literal
alternative delimited by word boundaries; `re.findall` scans left to
right, tries alternatives in declaration order, and resumes after the end
of each match. -/

/-- Python's `\w` on the ASCII fragment. -/
def isWordChar (c : Char) : Bool :=
  c.isAlphanum || c == '_'

/-- Word-character status of an optional character (`none` = outside the
string, which counts as a non-word position for `\b`). -/
def optIsWord : Option Char → Bool
  | none => false
  | some c => isWordChar c

/-- Strip the literal `lit` from the front of `s`. -/
def dropLit : List Char → List Char → Option (List Char)
  | [], s => some s
  | _ :: _, [] => none
  | a :: as, b :: bs => if a == b then dropLit as bs else none

/-- Try to match one alternative at the current position: `\b`, the
literal, then `\b`.  `prev` is the character before the position. -/
def matchAltAt (prev : Option Char) (s : List Char) (alt : List Char) :
    Option (List Char) :=
  if optIsWord prev == optIsWord alt.head? then none
  else
    match dropLit alt s with
    | none => none
    | some rest =>
      if optIsWord alt.getLast? == optIsWord rest.head? then none else some rest

/-- Try the alternatives in declaration order (Python alternation is
leftmost-first); return the matched alternative and the rest. -/
def matchAltsAt (prev : Option Char) (s : List Char) :
    List (List Char) → Option (List Char × List Char)
  | [] => none
  | alt :: others =>
    match matchAltAt prev s alt with
    | some rem => some (alt, rem)
    | none => matchAltsAt prev s others

/-- Fuel-indexed scanner counting non-overlapping matches, resuming after
each match exactly as `re.findall` does. -/
def scanCount (alts : List (List Char)) : Nat → Option Char → List Char → Nat
  | 0, _, _ => 0
  | _ + 1, _, [] => 0
  | fuel + 1, prev, c :: rest =>
    match matchAltsAt prev (c :: rest) alts with
    | some (alt, rem) => 1 + scanCount alts fuel alt.getLast? rem
    | none => scanCount alts fuel (some c) rest

/-- `len(re.findall(pattern, text))` for one boundary-delimited
alternation pattern. -/
def countMatches (alts : List (List Char)) (text : List Char) : Nat :=
  scanCount alts text.length none text

/-- Convenience: build the alternative list of a pattern from strings. -/
def pat (l : List String) : List (List Char) :=
  l.map String.toList

/-! ### Enumerations

`TaskMode` and `ContentType` come from `app/models/schemas.py`.

`schemas.py` declares a `RhetoricalRole` with six members; the labeling
service however references four further members and a `ConfidenceLabel`
enum that `schemas.py` does not define.  Modelled from the spec: the full
ten-member `RhetoricalRole` and the three-member `ConfidenceLabel` used by
`chunk_labeling.py` (the module importing them is present in the source but
the enum declarations it relies on are missing); the six-member enum that
`schemas.py` actually declares is recorded separately as
`schemasRhetoricalRoleValues`. -/

/-- Task modes from `schemas.py` (`TaskMode`). -/
inductive TaskMode where
  | START
  | CONTINUE
  | REFRAME
  | STUCK_DIAGNOSIS
  | OUTLINE
deriving DecidableEq, Repr

/-- `TaskMode.value` strings. -/
def TaskMode.value : TaskMode → String
  | .START => "START"
  | .CONTINUE => "CONTINUE"
  | .REFRAME => "REFRAME"
  | .STUCK_DIAGNOSIS => "STUCK_DIAGNOSIS"
  | .OUTLINE => "OUTLINE"

/-- Content types from `schemas.py` (`ContentType`). -/
inductive ContentType where
  | research_paper
  | video_transcript
  | lecture_notes
  | personal_notes
  | book_excerpt
  | article
  | unknown
deriving DecidableEq, Repr

/-- Modelled from the spec: the rhetorical-role enum the labeling service
uses (`argument, example, background, conclusion, definition, methodology,
insight, observation, unknown, insufficient_data`); `schemas.py` only
declares six of these members. -/
inductive RhetoricalRole where
  | argument
  | example
  | background
  | conclusion
  | definition
  | methodology
  | insight
  | observation
  | unknown
  | insufficient_data
deriving DecidableEq, Repr

/-- The string values of the rhetorical roles. -/
def roleValue : RhetoricalRole → String
  | .argument => "argument"
  | .example => "example"
  | .background => "background"
  | .conclusion => "conclusion"
  | .definition => "definition"
  | .methodology => "methodology"
  | .insight => "insight"
  | .observation => "observation"
  | .unknown => "unknown"
  | .insufficient_data => "insufficient_data"

/-- The member values of the `RhetoricalRole` enum as actually declared in
`app/models/schemas.py` (six members). -/
def schemasRhetoricalRoleValues : List String :=
  ["argument", "example", "background", "conclusion", "definition", "unknown"]

/-- Modelled from the spec: `confidence_label: enum{high, medium, low}`;
referenced by `chunk_labeling.py` but not declared in `schemas.py`. -/
inductive ConfidenceLabel where
  | high
  | medium
  | low
deriving DecidableEq, Repr

/-! ### Rhetorical-role pattern table (`ChunkLabelingService.__init__`)

Each Python regex `\b(…|…)\b` is transcribed as its list of literal
alternatives in Python's leftmost-first order, with optional suffixes
(`argues?`) expanded greedily (`argues` before `argue`) and inner groups
(`we (used|…)`) distributed.  All alternatives are lower-case because the
service matches against `text.lower()`. -/

/-- Patterns for `RhetoricalRole.ARGUMENT`. -/
def argumentPatterns : List (List (List Char)) :=
  [pat ["therefore", "thus", "consequently", "hence", "it follows that"],
   pat ["because", "since", "given that", "as a result"],
   pat ["argues", "argue", "claims", "claim", "asserts", "assert",
        "contends", "contend", "posits", "posit"],
   pat ["proves", "prove", "demonstrates", "demonstrate",
        "shows that", "show that"]]

/-- Patterns for `RhetoricalRole.EXAMPLE`. -/
def examplePatterns : List (List (List Char)) :=
  [pat ["for example", "for instance", "such as", "e.g.", "eg"],
   pat ["to illustrate", "consider the case", "imagine"],
   pat ["specifically", "in particular"]]

/-- Patterns for `RhetoricalRole.BACKGROUND`. -/
def backgroundPatterns : List (List (List Char)) :=
  [pat ["historically", "context", "background", "previously"],
   pat ["traditionally", "in the past", "over time"],
   pat ["introduction", "overview", "setting"]]

/-- Patterns for `RhetoricalRole.CONCLUSION`. -/
def conclusionPatterns : List (List (List Char)) :=
  [pat ["in conclusion", "to summarize", "in summary", "overall"],
   pat ["finally", "ultimately", "in the end"],
   pat ["to conclude", "therefore we", "thus we can"]]

/-- Patterns for `RhetoricalRole.METHODOLOGY`. -/
def methodologyPatterns : List (List (List Char)) :=
  [pat ["method", "methodology", "approach", "procedure", "technique"],
   pat ["we used", "we employed", "we applied", "we conducted",
        "we performed"],
   pat ["experimental setup", "study design", "protocol"],
   pat ["data collection", "analysis", "measurement"]]

/-- Patterns for `RhetoricalRole.INSIGHT`. -/
def insightPatterns : List (List (List Char)) :=
  [pat ["interestingly", "notably", "surprisingly", "remarkably"],
   pat ["reveals", "reveal", "suggests", "suggest", "indicates",
        "indicate", "implies", "implie"],
   pat ["key finding", "important", "significant", "crucial"]]

/-- Patterns for `RhetoricalRole.OBSERVATION`. -/
def observationPatterns : List (List (List Char)) :=
  [pat ["observed", "observe", "noticed", "notice", "found", "detected",
        "identified"],
   pat ["we see", "it appears", "seems to be"],
   pat ["evidence suggests", "evidence suggest", "data shows", "data show"]]

/-- Patterns for `RhetoricalRole.DEFINITION`. -/
def definitionPatterns : List (List (List Char)) :=
  [pat ["defined as", "refers to", "means", "is called"],
   pat ["terminology", "term", "concept", "definition"],
   pat ["in other words", "that is", "i.e.", "ie"]]

/-- `self.role_patterns`: the role-to-patterns table in declaration
(insertion) order, which Python dicts preserve. -/
def rolePatterns : List (RhetoricalRole × List (List (List Char))) :=
  [(.argument, argumentPatterns),
   (.example, examplePatterns),
   (.background, backgroundPatterns),
   (.conclusion, conclusionPatterns),
   (.methodology, methodologyPatterns),
   (.insight, insightPatterns),
   (.observation, observationPatterns),
   (.definition, definitionPatterns)]

/-- The registered roles in declaration order. -/
def roleList : List RhetoricalRole :=
  rolePatterns.map Prod.fst

/-! ### Rhetorical-role detection (`_detect_rhetorical_role`) -/

/-- Total match count of a role's patterns against the lower-cased text
(the `score` accumulated in the per-role loop). -/
def rawScore (text : String) (r : RhetoricalRole) : Nat :=
  match rolePatterns.find? (fun p => p.1 == r) with
  | some p => p.2.foldl (fun acc pt => acc + countMatches pt (pyLower text).toList) 0
  | none => 0

/-- `normalized_score = (score / max(word_count, 1)) * 100` — matches per
100 words of the lower-cased text. -/
def normScore (text : String) (r : RhetoricalRole) : ℚ :=
  (rawScore text r : ℚ) / ((max (countWords (pyLower text)) 1 : ℕ) : ℚ) * 100

/-- One entry of the `role_scores` dict: present only when the raw score
is positive. -/
def scoreEntry (text : String) (p : RhetoricalRole × List (List (List Char))) :
    Option (RhetoricalRole × ℚ) :=
  if rawScore text p.1 > 0 then some (p.1, normScore text p.1) else none

/-- The `role_scores` dict in insertion order (declaration order of
`role_patterns`, restricted to roles that scored). -/
def roleScores (text : String) : List (RhetoricalRole × ℚ) :=
  rolePatterns.filterMap (scoreEntry text)

/-- Python's `max(role_scores, key=role_scores.get)`: scans in insertion
order and replaces the current best only on a strictly greater value, so
the first key attaining the maximum wins. -/
def argmaxFirst : List (RhetoricalRole × ℚ) → Option (RhetoricalRole × ℚ)
  | [] => none
  | p :: rest => some (rest.foldl (fun best q => if q.2 > best.2 then q else best) p)

/-- `_detect_rhetorical_role`: score every role, pick the best-scoring
role (first wins on ties), convert to a confidence in `[0,1]`, and apply
the short-ambiguous-text override. -/
def detect_rhetorical_role (text : String) : RhetoricalRole × ℚ :=
  match argmaxFirst (roleScores text) with
  | none => (RhetoricalRole.unknown, 0)
  | some best =>
    -- `min(best_score / 5.0, 1.0)`
    let confidence := if best.2 / 5 ≤ 1 then best.2 / 5 else 1
    if confidence < 1/10 ∧ countWords text < 20 then
      (RhetoricalRole.insufficient_data, 0)
    else (best.1, confidence)

/-! ### Topic-tag extraction (`_extract_topic_tags`)

Two regexes run over the original (case-sensitive) text:
`\b([A-Z][a-z]+(?:\s+[A-Z][a-z]+)+)\b` for multi-word capitalized phrases
and `\b([A-Z]{2,})\b` for acronyms.  Both are embedded as direct scanners
with `re` backtracking semantics: a capitalized phrase greedily consumes
capitalized words and, if the trailing word boundary fails, gives back its
final word; an acronym is a maximal uppercase run of length ≥ 2 flanked by
boundaries. -/

/-- ASCII `[a-z]`. -/
def isLowerAZ (c : Char) : Bool := 'a' ≤ c && c ≤ 'z'

/-- ASCII `[A-Z]`. -/
def isUpperAZ (c : Char) : Bool := 'A' ≤ c && c ≤ 'Z'

/-- Maximal run of characters satisfying `p` at the front of the list. -/
def takeRun (p : Char → Bool) : List Char → List Char × List Char
  | [] => ([], [])
  | c :: rest =>
    if p c then
      let (run, rest') := takeRun p rest
      (c :: run, rest')
    else ([], c :: rest)

/-- `[A-Z][a-z]+`: one capitalized word (greedy lowercase run). -/
def parseCapWord : List Char → Option (List Char × List Char)
  | [] => none
  | c :: rest =>
    if isUpperAZ c then
      let (run, rest') := takeRun isLowerAZ rest
      if run.isEmpty then none else some (c :: run, rest')
    else none

/-- One `(?:\s+[A-Z][a-z]+)` segment after the first word: the whitespace
separator, the word, and the rest of the text after the word. -/
def parseSegs : Nat → List Char → List (List Char × List Char × List Char)
  | 0, _ => []
  | fuel + 1, s =>
    let (sp, rest) := takeRun pyIsSpace s
    if sp.isEmpty then []
    else
      match parseCapWord rest with
      | none => []
      | some (w, rest') => (sp, w, rest') :: parseSegs fuel rest'

/-- Render the matched phrase text `w₁ sep₂ w₂ …` from the segments kept. -/
def renderPhrase (w1 : List Char) : List (List Char × List Char × List Char) → List Char
  | [] => w1
  | (sp, w, _) :: rest => w1 ++ sp ++ renderPhrase w rest

/-- Attempt a capitalized-phrase match at the current position (`prev` is
the preceding character).  Returns the matched text and the rest of the
input after the match. -/
def phraseAt (prev : Option Char) (s : List Char) :
    Option (List Char × List Char) :=
  if optIsWord prev then none
  else
    match parseCapWord s with
    | none => none
    | some (w1, rest) =>
      let segs := parseSegs rest.length rest
      match segs.getLast? with
      | none => none
      | some (_, _, restL) =>
        if !optIsWord restL.head? then
          some (renderPhrase w1 segs, restL)
        else
          -- the trailing boundary fails: backtrack by dropping the final word
          let segs' := segs.dropLast
          match segs'.getLast? with
          | none => none
          | some (_, _, restP) => some (renderPhrase w1 segs', restP)

/-- `re.findall` scan for capitalized phrases. -/
def scanPhrases : Nat → Option Char → List Char → List (List Char)
  | 0, _, _ => []
  | _ + 1, _, [] => []
  | fuel + 1, prev, c :: rest =>
    match phraseAt prev (c :: rest) with
    | some (phrase, rem) => phrase :: scanPhrases fuel phrase.getLast? rem
    | none => scanPhrases fuel (some c) rest

/-- Attempt an acronym match (`[A-Z]{2,}` between boundaries). -/
def acronymAt (prev : Option Char) (s : List Char) :
    Option (List Char × List Char) :=
  if optIsWord prev then none
  else
    let (run, rest) := takeRun isUpperAZ s
    if run.length ≥ 2 && !optIsWord rest.head? then some (run, rest) else none

/-- `re.findall` scan for acronyms. -/
def scanAcronyms : Nat → Option Char → List Char → List (List Char)
  | 0, _, _ => []
  | _ + 1, _, [] => []
  | fuel + 1, prev, c :: rest =>
    match acronymAt prev (c :: rest) with
    | some (run, rem) => run :: scanAcronyms fuel run.getLast? rem
    | none => scanAcronyms fuel (some c) rest

/-- Increment a key's count in the insertion-ordered association list that
models the Python `tag_counts` dict (a new key is appended at the end). -/
def bumpAssoc (key : String) : List (String × Nat) → List (String × Nat)
  | [] => [(key, 1)]
  | (k, n) :: rest =>
    if k == key then (k, n + 1) :: rest else (k, n) :: bumpAssoc key rest

/-- The `tag_counts` dict of `_extract_topic_tags`: capitalized phrases
first (skipping phrases longer than 4 words), then acronyms (skipping
those shorter than 2 characters), each in text order. -/
def tagCounts (text : String) : List (String × Nat) :=
  let chars := text.toList
  let phrases := (scanPhrases chars.length none chars).map String.mk
  let acronyms := (scanAcronyms chars.length none chars).map String.mk
  let counts :=
    phrases.foldl (fun acc m => if countWords m > 4 then acc else bumpAssoc m acc) []
  acronyms.foldl (fun acc a => if a.length < 2 then acc else bumpAssoc a acc) counts

/-- Stable descending insertion: `p` goes after every element with a
strictly greater count and before the first element with an equal or
smaller count, exactly the order produced by Python's stable
`sorted(..., key=count, reverse=True)`. -/
def insertDesc (p : String × Nat) : List (String × Nat) → List (String × Nat)
  | [] => [p]
  | q :: rest => if q.2 > p.2 then q :: insertDesc p rest else p :: q :: rest

/-- Stable sort by descending count. -/
def sortDesc : List (String × Nat) → List (String × Nat)
  | [] => []
  | p :: rest => insertDesc p (sortDesc rest)

/-- The `sorted_tags` list of `_extract_topic_tags`. -/
def sortedTagCounts (text : String) : List (String × Nat) :=
  sortDesc (tagCounts text)

/-- `_extract_topic_tags`: `None` when no candidates exist, otherwise the
top `max_tags` candidate strings by descending frequency. -/
def extract_topic_tags (text : String) (max_tags : Nat := 3) :
    Option (List String) :=
  if tagCounts text = [] then none
  else
    let top_tags := ((sortedTagCounts text).take max_tags).map Prod.fst
    if top_tags = [] then none else some top_tags

/-! ### Confidence scoring (`_determine_confidence`) -/

/-- `_determine_confidence`: composite of role confidence, tag count and
coverage, with a short-text floor.  Note the source divides the raw
`tag_count` by 3 without clamping it at 3.  Python evaluates the
composite in binary floating point while this embedding uses exact
rationals; the two agree except when the composite lies within
float-rounding distance of the `0.4`/`0.7` thresholds (e.g. at
`tag_count = 4` with zero confidence and coverage the float composite is
`0.39999999999999997` though the exact value is `2/5`), so theorems about
the threshold mapping keep a safety margin away from the thresholds. -/
def determine_confidence (text : String) (role_confidence : ℚ)
    (tag_count : Nat) (coverage_score : Int) : ConfidenceLabel :=
  let composite :=
    role_confidence * 0.5 + ((tag_count : ℚ) / 3) * 0.3 +
      ((coverage_score : ℚ) / 100) * 0.2
  if countWords text < 10 then ConfidenceLabel.low
  else if composite ≥ 0.7 then ConfidenceLabel.high
  else if composite ≥ 0.4 then ConfidenceLabel.medium
  else ConfidenceLabel.low

/-! ### Label persistence (`save_label`)

The SQLAlchemy session is modelled as a list of rows queried by
`chunk_id`; `db.query(...).first()` finds the first matching row, the
update branch mutates exactly the five fields the source assigns, and the
insert branch appends a fresh row. -/

/-- A row of the `chunk_labels` table (the fields `save_label` writes). -/
structure ChunkLabelRow where
  chunk_id : String
  user_id : String
  document_id : String
  chunk_index : Nat
  chunk_text : String
  token_count : Nat
  source_type : ContentType
  rhetorical_role : RhetoricalRole
  topic_tags : Option (List String)
  confidence_label : ConfidenceLabel
  coverage_score : Int
  is_auto_labeled : Bool
  human_verified : Bool
deriving DecidableEq, Repr

/-- `json.dumps(topic_tags) if topic_tags else None`: an empty or absent
list is stored as NULL. -/
def serializeTags : Option (List String) → Option (List String)
  | some [] => none
  | t => t

/-- Update the first row with the given `chunk_id` in place, assigning
exactly the fields the source's update branch assigns. -/
def updateFirstRow (chunk_id : String) (rhetorical_role : RhetoricalRole)
    (topic_tags : Option (List String)) (confidence_label : ConfidenceLabel)
    (coverage_score : Int) (human_verified : Bool) :
    List ChunkLabelRow → List ChunkLabelRow
  | [] => []
  | r :: rest =>
    if r.chunk_id == chunk_id then
      { r with
        rhetorical_role := rhetorical_role
        topic_tags := serializeTags topic_tags
        confidence_label := confidence_label
        coverage_score := coverage_score
        human_verified := human_verified } :: rest
    else r :: updateFirstRow chunk_id rhetorical_role topic_tags
        confidence_label coverage_score human_verified rest

/-- `save_label`: overwrite the existing label for `chunk_id` if one
exists, otherwise insert a new row.  Returns the updated table. -/
def save_label (db : List ChunkLabelRow) (chunk_id user_id document_id : String)
    (chunk_index : Nat) (chunk_text : String) (source_type : ContentType)
    (rhetorical_role : RhetoricalRole) (topic_tags : Option (List String))
    (token_count : Nat) (confidence_label : ConfidenceLabel)
    (coverage_score : Int) (is_auto_labeled : Bool := true)
    (human_verified : Bool := false) : List ChunkLabelRow :=
  match db.find? (fun r => r.chunk_id == chunk_id) with
  | some _ =>
    updateFirstRow chunk_id rhetorical_role topic_tags confidence_label
      coverage_score human_verified db
  | none =>
    db ++ [{ chunk_id := chunk_id
             user_id := user_id
             document_id := document_id
             chunk_index := chunk_index
             chunk_text := chunk_text
             token_count := token_count
             source_type := source_type
             rhetorical_role := rhetorical_role
             topic_tags := serializeTags topic_tags
             confidence_label := confidence_label
             coverage_score := coverage_score
             is_auto_labeled := is_auto_labeled
             human_verified := human_verified }]

/-- The `save_label` call made for each chunk by
`DocumentProcessor.process_and_label_chunks`: auto-label results with
`is_auto_labeled=True` and `human_verified=False`. -/
def auto_label_pass (db : List ChunkLabelRow) (chunk_id user_id document_id : String)
    (chunk_index : Nat) (chunk_text : String) (source_type : ContentType)
    (rhetorical_role : RhetoricalRole) (topic_tags : Option (List String))
    (token_count : Nat) (confidence_label : ConfidenceLabel)
    (coverage_score : Int) : List ChunkLabelRow :=
  save_label db chunk_id user_id document_id chunk_index chunk_text source_type
    rhetorical_role topic_tags token_count confidence_label coverage_score
    true false

/-! ### Output validation (`LLMService.validate_generation`) -/

/-- The mode-parameterized required headings of `validate_generation`. -/
def requiredSections (mode : TaskMode) : List String :=
  ["## " ++ mode.value ++ " Guidance",
   "### 1. Likely Next Move",
   "### 2. Supporting Rationale",
   "### 4. Cautions or Limitations"]

/-- The forbidden first-person patterns with their error messages, in dict
insertion order. -/
def forbiddenPatterns : List (String × String) :=
  [("I think", "First-person opinion detected"),
   ("I believe", "First-person opinion detected"),
   ("I would", "First-person suggestion detected"),
   ("In my opinion", "Personal opinion detected"),
   ("My approach", "First-person perspective detected"),
   ("I recommend", "First-person recommendation detected")]

/-- Claim-indicator phrases of the unsupported-claim heuristic. -/
def claimIndicators : List String :=
  ["research shows", "studies indicate", "evidence suggests"]

/-- `LLMService.validate_generation`: required sections, then forbidden
phrases, then the citation heuristic, then the length cap. -/
def validate_generation (output : String) (mode : TaskMode) : Bool × String :=
  match (requiredSections mode).find? (fun s => !strContains output s) with
  | some s => (false, "Missing required section: " ++ s)
  | none =>
    let output_lower := pyLower output
    match forbiddenPatterns.find? (fun p => strContains output_lower (pyLower p.1)) with
    | some p => (false, p.2)
    | none =>
      if !strContains output "**Source" && !strContains output "[No relevant source" then
        match claimIndicators.find? (fun ind => strContains output_lower (pyLower ind)) with
        | some _ => (false, "Factual claims without source citations detected")
        | none =>
          if countWords output > 300 then
            (false, "Response too long (" ++ toString (countWords output) ++ " words, max 300)")
          else (true, "")
      else
        if countWords output > 300 then
          (false, "Response too long (" ++ toString (countWords output) ++ " words, max 300)")
        else (true, "")

/-! ### Fallback response (`LLMService.fallback_response`) -/

/-- The fixed part of the fallback template, up to and including the
`Error context: ` prefix. -/
def fallbackFront (mode : TaskMode) : String :=
  "## " ++ mode.value ++ " Guidance\n\n" ++
  "### 1. Likely Next Move\n" ++
  "Unable to generate specific guidance at this time.\n\n" ++
  "### 2. Supporting Rationale\n" ++
  "[No relevant source found - insufficient context in document corpus]\n\n" ++
  "### 3. Alternative Paths\n" ++
  "Consider uploading additional documents related to your topic for more targeted guidance.\n\n" ++
  "### 4. Cautions or Limitations\n" ++
  "The system encountered an issue generating guidance. This may indicate:\n" ++
  "- Insufficient relevant documents in your corpus\n" ++
  "- Need for more specific context in your query\n" ++
  "- Technical limitation requiring retry\n\n" ++
  "Error context: "

/-- `LLMService.fallback_response`: the deterministic template with the
error context interpolated verbatim (`"Unknown error"` when empty). -/
def fallback_response (mode : TaskMode) (error_context : String := "") : String :=
  fallbackFront mode ++
    (if error_context == "" then "Unknown error" else error_context)

/-! ### Prompt-builder validator (`PromptBuilder.validate_output`) -/

/-- The required headings of `PromptBuilder.validate_output` (its own
declaration; textually the same four strings). -/
def requiredSectionsPB (mode : TaskMode) : List String :=
  ["## " ++ mode.value ++ " Guidance",
   "### 1. Likely Next Move",
   "### 2. Supporting Rationale",
   "### 4. Cautions or Limitations"]

/-- The forbidden patterns of `PromptBuilder.validate_output` (four
entries only). -/
def forbiddenPB : List String :=
  ["I think", "In my opinion", "I would", "My approach"]

/-- `PromptBuilder.validate_output`: boolean structural/tone check with no
citation heuristic and no length cap. -/
def validate_output (output : String) (mode : TaskMode) : Bool :=
  if (requiredSectionsPB mode).any (fun s => !strContains output s) then false
  else if forbiddenPB.any (fun p => strContains (pyLower output) (pyLower p)) then false
  else true

/-! ### Diversity filter (`get_assistance` in `api/routes.py`) -/

/-- A retrieval result as the diversity filter sees it (identity plus its
source file). -/
structure RetrievedChunk where
  chunk_id : String
  source_filename : String
deriving DecidableEq, Repr

/-- Count already accepted for a source in the `source_counts` dict
(`source_counts.get(source, 0)`). -/
def lookupCount : List (String × Nat) → String → Nat
  | [], _ => 0
  | p :: rest, source => if p.1 == source then p.2 else lookupCount rest source

/-- The filter loop: keep a chunk only while fewer than 3 accepted chunks
share its `source_filename`. -/
def diversityFilterAux (counts : List (String × Nat)) :
    List RetrievedChunk → List RetrievedChunk
  | [] => []
  | c :: rest =>
    if lookupCount counts c.source_filename < 3 then
      c :: diversityFilterAux (bumpAssoc c.source_filename counts) rest
    else diversityFilterAux counts rest

/-- `filtered_chunks` as computed in `get_assistance`. -/
def diversityFilter (results : List RetrievedChunk) : List RetrievedChunk :=
  diversityFilterAux [] results

/-- `filtered_chunks[:5]`: the sequence handed to the prompt builder and
echoed as citations. -/
def promptSources (results : List RetrievedChunk) : List RetrievedChunk :=
  (diversityFilter results).take 5

/-- Number of chunks of a list that carry the given `source_filename`. -/
def countBySource (l : List RetrievedChunk) (s : String) : Nat :=
  (l.filter (fun c => c.source_filename == s)).length

/-- The string values of every rhetorical role `_detect_rhetorical_role`
can return: the registered pattern-table roles plus `unknown` and
`insufficient_data`. -/
def classifierRoleValues : List String :=
  rolePatterns.map (fun p => roleValue p.1) ++ ["unknown", "insufficient_data"]

/-! ## Helper lemmas -/

theorem startsWithLit_append (n l m : List Char)
    (h : startsWithLit n l = true) : startsWithLit n (l ++ m) = true := by
  induction n generalizing l with
  | nil => rfl
  | cons a as ih =>
    cases l with
    | nil => simp [startsWithLit] at h
    | cons b bs =>
      simp only [startsWithLit, Bool.and_eq_true] at h ⊢
      exact ⟨h.1, ih bs h.2⟩

theorem containsSub_append_left (n l m : List Char)
    (h : containsSub n l = true) : containsSub n (l ++ m) = true := by
  induction l with
  | nil =>
    simp only [containsSub] at h
    cases n with
    | nil => cases m <;> simp [containsSub, startsWithLit]
    | cons a as => simp [startsWithLit] at h
  | cons c rest ih =>
    simp only [containsSub, Bool.or_eq_true] at h ⊢
    rcases h with h | h
    · exact Or.inl (startsWithLit_append n (c :: rest) m h)
    · exact Or.inr (ih h)

theorem strContains_append_left (a b n : String)
    (h : strContains a n = true) : strContains (a ++ b) n = true := by
  unfold strContains at h ⊢
  have : (a ++ b).toList = a.toList ++ b.toList := rfl
  rw [this]
  exact containsSub_append_left _ _ _ h

/-! ## C2 -/

/-- C2: re-running the auto-label pass on a chunk whose stored label is
human-verified does not leave it unchanged: `save_label` overwrites the
stored rhetorical role, topic tags, confidence label and coverage score
with the fresh auto-label values and resets `human_verified` to false.
Evaluated at a concrete one-row table holding a verified `background`
label that the auto pass relabels to `argument`. -/
theorem save_label_overwrites_verified_row :
    (auto_label_pass
      [{ chunk_id := "u1_d1_0", user_id := "u1", document_id := "d1",
         chunk_index := 0, chunk_text := "Historically, context mattered.",
         token_count := 6, source_type := ContentType.article,
         rhetorical_role := RhetoricalRole.background,
         topic_tags := some ["Neural Networks"],
         confidence_label := ConfidenceLabel.high, coverage_score := 90,
         is_auto_labeled := false, human_verified := true }]
      "u1_d1_0" "u1" "d1" 0 "Historically, context mattered."
      ContentType.article RhetoricalRole.argument none 6
      ConfidenceLabel.low 50).map
        (fun r => (r.human_verified, r.rhetorical_role, r.confidence_label,
                   r.coverage_score, r.topic_tags)) =
      [(false, RhetoricalRole.argument, ConfidenceLabel.low, 50, none)] := by
  rfl

/-! ## C3 -/

/-- C3 (amended): a text of fewer than 20 words whose role patterns all
have zero matches is classified `unknown` with confidence 0 (not
`insufficient_data`): with no scored role, `_detect_rhetorical_role`
returns through its empty-`role_scores` branch. -/
theorem detect_no_match_short_text_unknown (t : String)
    (hwc : countWords t < 20)
    (hz : ∀ p ∈ rolePatterns, rawScore t p.1 = 0) :
    detect_rhetorical_role t = (RhetoricalRole.unknown, 0) := by
  have hscores : roleScores t = [] := by
    rw [roleScores, List.filterMap_eq_nil_iff]
    intro p hp
    simp [scoreEntry, hz p hp]
  rw [detect_rhetorical_role, hscores]
  rfl

/-- C3 witness: the spec's own example `"ok"` — one word, no pattern
matches — classifies as `(unknown, 0.0)`. -/
theorem detect_no_match_short_text_unknown_witness :
    countWords "ok" < 20 ∧
      detect_rhetorical_role "ok" = (RhetoricalRole.unknown, 0) :=
  ⟨by decide, detect_no_match_short_text_unknown "ok" (by decide) (by decide)⟩

/-- C3 counterexample: the claim predicts `classify("ok")` is
`(insufficient_data, 0.0)`, but the code returns `(unknown, 0.0)` because
a text matching no pattern never reaches the `insufficient_data`
override. -/
theorem detect_ok_not_insufficient_data :
    detect_rhetorical_role "ok" ≠ (RhetoricalRole.insufficient_data, 0) ∧
      detect_rhetorical_role "ok" = (RhetoricalRole.unknown, 0) := by
  constructor
  · intro h
    exact absurd h (by decide!)
  · decide!

/-! ## C4 -/

/-- C4: the classifier's pattern table registers `methodology`, `insight`
and `observation` and its override returns `insufficient_data`, yet none
of these four values is a member of the six-member `RhetoricalRole` enum
that `app/models/schemas.py` declares — the shared role type does not
contain the ten claimed members. -/
theorem classifier_roles_missing_from_schema :
    (∀ v ∈ ["methodology", "insight", "observation", "insufficient_data"],
        v ∈ classifierRoleValues ∧ v ∉ schemasRhetoricalRoleValues) ∧
      schemasRhetoricalRoleValues.length = 6 := by
  decide

/-! ## C5 -/

theorem lookupCount_bumpAssoc_self (counts : List (String × Nat)) (s : String) :
    lookupCount (bumpAssoc s counts) s = lookupCount counts s + 1 := by
  induction counts with
  | nil => simp [bumpAssoc, lookupCount]
  | cons p rest ih =>
    by_cases h : p.1 = s
    · simp [bumpAssoc, lookupCount, h]
    · simp [bumpAssoc, lookupCount, h, ih]

theorem lookupCount_bumpAssoc_other (counts : List (String × Nat))
    (s s' : String) (h : s' ≠ s) :
    lookupCount (bumpAssoc s' counts) s = lookupCount counts s := by
  induction counts with
  | nil => simp [bumpAssoc, lookupCount, h]
  | cons p rest ih =>
    by_cases hp : p.1 = s'
    · simp [bumpAssoc, lookupCount, hp, h]
    · simp [bumpAssoc, lookupCount, hp, ih]

theorem diversityFilterAux_sublist (l : List RetrievedChunk) :
    ∀ counts, List.Sublist (diversityFilterAux counts l) l := by
  induction l with
  | nil => intro counts; simp [diversityFilterAux]
  | cons c rest ih =>
    intro counts
    rw [diversityFilterAux]
    split
    · exact List.Sublist.cons₂ c (ih _)
    · exact List.Sublist.cons c (ih _)

theorem diversityFilterAux_count (l : List RetrievedChunk) :
    ∀ counts s, countBySource (diversityFilterAux counts l) s ≤
      3 - lookupCount counts s := by
  induction l with
  | nil => intro counts s; simp [diversityFilterAux, countBySource]
  | cons c rest ih =>
    intro counts s
    rw [diversityFilterAux]
    split
    · rename_i hlt
      by_cases hs : c.source_filename = s
      · subst hs
        have hcnt : countBySource
            (c :: diversityFilterAux (bumpAssoc c.source_filename counts) rest)
              c.source_filename =
            countBySource (diversityFilterAux (bumpAssoc c.source_filename counts) rest)
              c.source_filename + 1 := by
          simp [countBySource]
        rw [hcnt]
        have h2 := ih (bumpAssoc c.source_filename counts) c.source_filename
        rw [lookupCount_bumpAssoc_self] at h2
        omega
      · have hcnt : countBySource
            (c :: diversityFilterAux (bumpAssoc c.source_filename counts) rest) s =
            countBySource (diversityFilterAux (bumpAssoc c.source_filename counts) rest) s := by
          simp [countBySource, hs]
        rw [hcnt]
        have h2 := ih (bumpAssoc c.source_filename counts) s
        rw [lookupCount_bumpAssoc_other counts s c.source_filename hs] at h2
        exact h2
    · exact ih counts s

/-- C5: the diversity-filtered sequence handed to the prompt builder (and
echoed as citations) holds at most 3 results per `source_filename`, at
most 5 results in total, and is a rank-order subsequence of the raw
retrieval results. -/
theorem diversity_filter_caps_and_order (results : List RetrievedChunk) :
    (∀ s, countBySource (promptSources results) s ≤ 3) ∧
      (promptSources results).length ≤ 5 ∧
      List.Sublist (promptSources results) results := by
  refine ⟨fun s => ?_, ?_, ?_⟩
  · have h1 : List.Sublist (promptSources results) (diversityFilter results) :=
      List.take_sublist 5 _
    have h2 : countBySource (promptSources results) s ≤
        countBySource (diversityFilter results) s :=
      List.Sublist.length_le (h1.filter _)
    have h3 := diversityFilterAux_count results [] s
    simp [lookupCount, List.find?] at h3
    exact le_trans h2 h3
  · exact List.length_take_le 5 (diversityFilter results)
  · exact (List.take_sublist 5 _).trans (diversityFilterAux_sublist results [])

/-! ## C6 -/

/-- C6: whenever some mode-required heading is missing from the output,
`validate_generation` rejects with a reason naming the first missing
required section — regardless of any forbidden phrase also present,
because the required-section check runs first and returns immediately. -/
theorem validate_reports_first_missing_section (output : String)
    (mode : TaskMode) (s : String)
    (h : (requiredSections mode).find? (fun sec => !strContains output sec) = some s) :
    validate_generation output mode = (false, "Missing required section: " ++ s) := by
  rw [validate_generation, h]

/-- C6 witness: an output that contains the forbidden phrase `I think`
and none of the required headings is rejected for the first missing
section, not for the phrase. -/
theorem validate_reports_first_missing_section_witness :
    strContains (pyLower "I think the answer is obvious.") (pyLower "I think") = true ∧
      validate_generation "I think the answer is obvious." TaskMode.START =
        (false, "Missing required section: ## START Guidance") :=
  ⟨by decide,
   validate_reports_first_missing_section "I think the answer is obvious."
     TaskMode.START "## START Guidance" (by decide)⟩

/-! ## C7 -/

/-- C7 (amended): for confidence scoring the composite is
`0.5*role_confidence + 0.3*(tag_count/3) + 0.2*(coverage_score/100)` — the
code divides the raw tag count by 3 with no `min(tag_count,3)` clamp —
and, whenever the composite sits at least `1/100` away from each
threshold (so binary-float rounding in the program cannot flip the
comparison), the label is `high` above `0.7`, `medium` between `0.4` and
`0.7` and `low` below `0.4`; any text of fewer than 10 words is forced to
`low` regardless of the composite. -/
theorem determine_confidence_mapping (t : String) (rc : ℚ) (tc : Nat) (cs : Int)
    (h0 : 0 ≤ rc) (h1 : rc ≤ 1) (hc0 : 0 ≤ cs) (hc1 : cs ≤ 100) :
    (countWords t < 10 → determine_confidence t rc tc cs = ConfidenceLabel.low) ∧
    (10 ≤ countWords t →
      (((0.7 : ℚ) + 1/100 ≤ 0.5 * rc + 0.3 * ((tc : ℚ) / 3) + 0.2 * ((cs : ℚ) / 100) →
          determine_confidence t rc tc cs = ConfidenceLabel.high) ∧
       ((0.4 : ℚ) + 1/100 ≤ 0.5 * rc + 0.3 * ((tc : ℚ) / 3) + 0.2 * ((cs : ℚ) / 100) ∧
          0.5 * rc + 0.3 * ((tc : ℚ) / 3) + 0.2 * ((cs : ℚ) / 100) ≤ (0.7 : ℚ) - 1/100 →
          determine_confidence t rc tc cs = ConfidenceLabel.medium) ∧
       (0.5 * rc + 0.3 * ((tc : ℚ) / 3) + 0.2 * ((cs : ℚ) / 100) ≤ (0.4 : ℚ) - 1/100 →
          determine_confidence t rc tc cs = ConfidenceLabel.low))) := by
  have hXY : (0.5 : ℚ) * rc + 0.3 * ((tc : ℚ) / 3) + 0.2 * ((cs : ℚ) / 100) =
      rc * 0.5 + ((tc : ℚ) / 3) * 0.3 + ((cs : ℚ) / 100) * 0.2 := by ring
  simp only [determine_confidence]
  rw [hXY]
  constructor
  · intro h
    rw [if_pos h]
  · intro h10
    rw [if_neg (by omega : ¬ countWords t < 10)]
    by_cases h7 : rc * 0.5 + ((tc : ℚ) / 3) * 0.3 + ((cs : ℚ) / 100) * 0.2 ≥ 0.7
    · rw [if_pos h7]
      refine ⟨fun _ => rfl, ?_, ?_⟩
      · rintro ⟨-, hb⟩; exfalso; linarith
      · intro hb; exfalso; linarith
    · rw [if_neg h7]
      by_cases h4 : rc * 0.5 + ((tc : ℚ) / 3) * 0.3 + ((cs : ℚ) / 100) * 0.2 ≥ 0.4
      · rw [if_pos h4]
        refine ⟨?_, fun _ => rfl, ?_⟩
        · intro hhi; exfalso; exact h7 (by linarith)
        · intro hb; exfalso; linarith
      · rw [if_neg h4]
        refine ⟨?_, ?_, fun _ => rfl⟩
        · intro hhi; exfalso; exact h7 (by linarith)
        · rintro ⟨ha, -⟩; exfalso; exact h4 (by linarith)

/-- C7 witness: a ten-word text with full role confidence, three tags and
full coverage maps to `high` (composite = 1, well above 0.7). -/
theorem determine_confidence_mapping_witness :
    determine_confidence "a b c d e f g h i j" 1 3 100 = ConfidenceLabel.high := by
  have h := (determine_confidence_mapping "a b c d e f g h i j" 1 3 100
    (by norm_num) (le_refl 1) (by norm_num) (by norm_num)).2 (by decide)
  exact h.1 (by norm_num)

/-- C7 counterexample: at `tag_count = 5` (word count 10, zero role
confidence and coverage) the composite `(5/3)*0.3` rounds to exactly
`0.5` in the program's float arithmetic — agreeing with the exact value —
so the code returns `medium`, while the claim's formula
`0.5*rc + 0.3*min(tag_count,3)/3 + 0.2*cs/100` gives `0.3 < 0.4`, which
the claim maps to `low`. -/
theorem determine_confidence_counterexample :
    determine_confidence "a b c d e f g h i j" 0 5 0 = ConfidenceLabel.medium ∧
      0.5 * (0 : ℚ) + 0.3 * (((min 5 3 : ℕ) : ℚ) / 3) + 0.2 * (((0 : ℤ) : ℚ) / 100) < 0.4 := by
  constructor
  · decide!
  · norm_num

/-! ## C9 -/

theorem insertDesc_filter (p : String × Nat) (c : Nat) :
    ∀ l : List (String × Nat),
      (insertDesc p l).filter (fun q => q.2 == c) =
        if p.2 == c then p :: l.filter (fun q => q.2 == c)
        else l.filter (fun q => q.2 == c)
  | [] => by
    cases hpc : p.2 == c <;> simp [insertDesc, List.filter, hpc]
  | q :: rest => by
    rw [insertDesc]
    by_cases hq : q.2 > p.2
    · rw [if_pos hq, List.filter_cons, insertDesc_filter p c rest]
      cases hpc : p.2 == c with
      | false => simp [hpc, List.filter_cons]
      | true =>
        have hqc : (q.2 == c) = false := by
          have hp2 : p.2 = c := by simpa using hpc
          simp only [beq_eq_false_iff_ne, ne_eq]
          omega
        simp [hpc, hqc, List.filter_cons]
    · rw [if_neg hq]
      cases hpc : p.2 == c <;> simp [hpc, List.filter_cons]

theorem chain'_insertDesc (p : String × Nat) :
    ∀ l, List.Chain' (fun a b : String × Nat => b.2 ≤ a.2) l →
      List.Chain' (fun a b : String × Nat => b.2 ≤ a.2) (insertDesc p l)
  | [], _ => by simp [insertDesc]
  | q :: rest, h => by
    rw [insertDesc]
    rcases List.chain'_cons'.mp h with ⟨hhead, htail⟩
    by_cases hq : q.2 > p.2
    · rw [if_pos hq]
      refine List.chain'_cons'.mpr ⟨?_, chain'_insertDesc p rest htail⟩
      intro b hb
      cases rest with
      | nil =>
        simp [insertDesc] at hb
        subst hb
        omega
      | cons r rest' =>
        rw [insertDesc] at hb
        by_cases hr : r.2 > p.2
        · rw [if_pos hr] at hb
          simp at hb
          subst hb
          exact hhead r (by simp)
        · rw [if_neg hr] at hb
          simp at hb
          subst hb
          omega
    · rw [if_neg hq]
      refine List.chain'_cons'.mpr ⟨?_, h⟩
      intro b hb
      simp at hb
      subst hb
      omega

theorem chain'_sortDesc :
    ∀ l, List.Chain' (fun a b : String × Nat => b.2 ≤ a.2) (sortDesc l)
  | [] => by simp [sortDesc]
  | p :: rest => by
    rw [sortDesc]
    exact chain'_insertDesc p _ (chain'_sortDesc rest)

theorem filter_sortDesc (c : Nat) :
    ∀ l : List (String × Nat),
      (sortDesc l).filter (fun q => q.2 == c) = l.filter (fun q => q.2 == c)
  | [] => rfl
  | p :: rest => by
    rw [sortDesc, insertDesc_filter p c, filter_sortDesc c rest, List.filter_cons]

theorem insertDesc_ne_nil (p : String × Nat) (l : List (String × Nat)) :
    insertDesc p l ≠ [] := by
  cases l with
  | nil => simp [insertDesc]
  | cons q rest =>
    rw [insertDesc]
    split <;> simp

theorem sortDesc_ne_nil (l : List (String × Nat)) (h : l ≠ []) :
    sortDesc l ≠ [] := by
  cases l with
  | nil => exact absurd rfl h
  | cons p rest =>
    rw [sortDesc]
    exact insertDesc_ne_nil p _

/-- C9 (amended): the sorted candidate list is ordered by non-increasing
frequency, and candidates of equal frequency keep their `tag_counts`
insertion order — capitalized phrases in first-occurrence order followed
by acronyms in first-occurrence order — and the returned tag list is the
first `max_tags` candidate strings of that sorted list. -/
theorem extract_tags_sorted_stable (text : String) :
    List.Chain' (fun a b : String × Nat => b.2 ≤ a.2) (sortedTagCounts text) ∧
      (∀ c, (sortedTagCounts text).filter (fun q => q.2 == c) =
        (tagCounts text).filter (fun q => q.2 == c)) ∧
      extract_topic_tags text =
        (if tagCounts text = [] then none
         else some (((sortedTagCounts text).take 3).map Prod.fst)) := by
  refine ⟨chain'_sortDesc _, fun c => filter_sortDesc c _, ?_⟩
  rw [extract_topic_tags]
  by_cases h : tagCounts text = []
  · simp [h]
  · rw [if_neg h, if_neg h]
    have hne : sortedTagCounts text ≠ [] := sortDesc_ne_nil _ h
    have htop : ((sortedTagCounts text).take 3).map Prod.fst ≠ [] := by
      cases hs : sortedTagCounts text with
      | nil => exact absurd hs hne
      | cons a l => simp [hs, List.take]
    rw [if_neg htop]

/-! ## C1 -/

theorem requiredSections_in_fallbackFront (mode : TaskMode) :
    ∀ s ∈ requiredSections mode, strContains (fallbackFront mode) s = true := by
  cases mode <;> decide

theorem no_source_marker_in_fallbackFront (mode : TaskMode) :
    strContains (fallbackFront mode) "[No relevant source" = true := by
  cases mode <;> decide

/-- C1 (amended): for every defined mode, the fallback message passes
`validate_generation` whenever the interpolated error context neither
introduces a forbidden first-person phrase into the message
(case-insensitively) nor pushes the total word count above 300; the
spec's own instance `fallback(mode, "x")` satisfies both side conditions
for every mode. -/
theorem fallback_valid_for_benign_context (mode : TaskMode) (ctx : String)
    (hf : ∀ p ∈ forbiddenPatterns,
        strContains (pyLower (fallback_response mode ctx)) (pyLower p.1) = false)
    (hw : countWords (fallback_response mode ctx) ≤ 300) :
    validate_generation (fallback_response mode ctx) mode = (true, "") := by
  have hsec : (requiredSections mode).find?
      (fun s => !strContains (fallback_response mode ctx) s) = none := by
    rw [List.find?_eq_none]
    intro s hs
    have h1 := requiredSections_in_fallbackFront mode s hs
    have h2 : strContains (fallback_response mode ctx) s = true := by
      rw [fallback_response]
      exact strContains_append_left _ _ _ h1
    simp [h2]
  have hforb : forbiddenPatterns.find?
      (fun p => strContains (pyLower (fallback_response mode ctx)) (pyLower p.1)) =
        none := by
    rw [List.find?_eq_none]
    intro p hp
    simp [hf p hp]
  have hsrc : strContains (fallback_response mode ctx) "[No relevant source" = true := by
    rw [fallback_response]
    exact strContains_append_left _ _ _ (no_source_marker_in_fallbackFront mode)
  have hw' : ¬ (countWords (fallback_response mode ctx) > 300) := by omega
  simp [validate_generation, hsec, hforb, hsrc, hw']

/-- C1 witness: `validate(fallback(mode, "x"), mode) = (true, "")` at mode
`START` with the spec's context `"x"`. -/
theorem fallback_valid_for_benign_context_witness :
    validate_generation (fallback_response TaskMode.START "x") TaskMode.START =
      (true, "") :=
  fallback_valid_for_benign_context TaskMode.START "x" (by decide) (by decide)

/-- C1 counterexample: the error context is embedded verbatim, so the
context `"I think"` plants a forbidden phrase in the fallback and
validation rejects it — `validate(fallback(mode, ctx), mode)` is not
`(true, "")` for every `ctx`. -/
theorem fallback_with_forbidden_context_invalid :
    validate_generation (fallback_response TaskMode.START "I think") TaskMode.START =
      (false, "First-person opinion detected") := by
  decide

/-! ## C10 -/

/-- C10 (amended): `PromptBuilder.validate_output` accepts every output
that `LLMService.validate_generation` accepts (the required headings
coincide and the prompt builder's four forbidden phrases are a subset of
the service's six), but not conversely. -/
theorem validate_output_of_validate_generation (output : String) (mode : TaskMode)
    (h : validate_generation output mode = (true, "")) :
    validate_output output mode = true := by
  rw [validate_generation] at h
  cases hsec : (requiredSections mode).find? (fun s => !strContains output s) with
  | some s =>
    rw [hsec] at h
    simp at h
  | none =>
    rw [hsec] at h
    dsimp only at h
    cases hforb : forbiddenPatterns.find?
        (fun p => strContains (pyLower output) (pyLower p.1)) with
    | some p =>
      rw [hforb] at h
      simp at h
    | none =>
      have hsecs := List.find?_eq_none.mp hsec
      have hforbs := List.find?_eq_none.mp hforb
      have hany : (requiredSectionsPB mode).any (fun s => !strContains output s) = false := by
        rw [List.any_eq_false]
        intro s hs
        have hs' : s ∈ requiredSections mode := by
          have heq : requiredSectionsPB mode = requiredSections mode := rfl
          rw [heq] at hs
          exact hs
        have := hsecs s hs'
        simpa using this
      have hf1 : strContains (pyLower output) (pyLower "I think") = false := by
        have := hforbs ("I think", "First-person opinion detected")
          (by simp [forbiddenPatterns])
        simpa using this
      have hf2 : strContains (pyLower output) (pyLower "In my opinion") = false := by
        have := hforbs ("In my opinion", "Personal opinion detected")
          (by simp [forbiddenPatterns])
        simpa using this
      have hf3 : strContains (pyLower output) (pyLower "I would") = false := by
        have := hforbs ("I would", "First-person suggestion detected")
          (by simp [forbiddenPatterns])
        simpa using this
      have hf4 : strContains (pyLower output) (pyLower "My approach") = false := by
        have := hforbs ("My approach", "First-person perspective detected")
          (by simp [forbiddenPatterns])
        simpa using this
      have hanyf : forbiddenPB.any
          (fun p => strContains (pyLower output) (pyLower p)) = false := by
        rw [List.any_eq_false]
        intro p hp
        have hp' : p = "I think" ∨ p = "In my opinion" ∨ p = "I would" ∨
            p = "My approach" := by simpa [forbiddenPB] using hp
        rcases hp' with rfl | rfl | rfl | rfl
        · simp [hf1]
        · simp [hf2]
        · simp [hf3]
        · simp [hf4]
      simp [validate_output, hany, hanyf]

/-- C10 witness: a well-formed output accepted by `validate_generation`
is accepted by `validate_output` too. -/
theorem validate_output_of_validate_generation_witness :
    validate_output
      ("## START Guidance\n### 1. Likely Next Move\n### 2. Supporting Rationale\n### 4. Cautions or Limitations")
      TaskMode.START = true :=
  validate_output_of_validate_generation _ TaskMode.START (by decide)

/-- C10 counterexample: an output carrying `I believe` passes the prompt
builder's boolean validator (whose forbidden list lacks that phrase) but
fails `validate_generation`, so the two validators do not agree. -/
theorem validators_disagree_on_i_believe :
    validate_output
        ("## START Guidance\n### 1. Likely Next Move\nx\n### 2. Supporting Rationale\nI believe y\n### 4. Cautions or Limitations\nz")
        TaskMode.START = true ∧
      validate_generation
        ("## START Guidance\n### 1. Likely Next Move\nx\n### 2. Supporting Rationale\nI believe y\n### 4. Cautions or Limitations\nz")
        TaskMode.START ≠ (true, "") := by
  constructor
  · decide
  · decide

/-! ## C8 -/

theorem toNat_ofNat_valid (n : Nat) (h : n.isValidChar) :
    (Char.ofNat n).toNat = n := by
  rw [Char.ofNat, dif_pos h]
  rfl

theorem pyIsSpace_eq_false_of_toNat_gt (x : Char) (h : 32 < x.toNat) :
    pyIsSpace x = false := by
  have hne : ∀ y : Char, y.toNat ≤ 32 → (x == y) = false := by
    intro y hy
    rw [beq_eq_false_iff_ne]
    intro he
    subst he
    omega
  rw [pyIsSpace, hne ' ' (by decide), hne '\t' (by decide), hne '\n' (by decide),
    hne '\r' (by decide), hne '\x0b' (by decide), hne '\x0c' (by decide)]
  rfl

theorem pyIsSpace_pyLowerChar (c : Char) :
    pyIsSpace (pyLowerChar c) = pyIsSpace c := by
  rw [pyLowerChar]
  split
  · rename_i h
    simp only [Bool.and_eq_true, decide_eq_true_eq] at h
    obtain ⟨h1, h2⟩ := h
    have hvalid : (c.toNat + 32).isValidChar := Or.inl (by omega)
    have hofn : (Char.ofNat (c.toNat + 32)).toNat = c.toNat + 32 :=
      toNat_ofNat_valid _ hvalid
    rw [pyIsSpace_eq_false_of_toNat_gt c (by omega),
      pyIsSpace_eq_false_of_toNat_gt _ (by omega)]
  · rfl

theorem countWordsAux_map_pyLower (l : List Char) :
    ∀ b, countWordsAux b (l.map pyLowerChar) = countWordsAux b l := by
  induction l with
  | nil => intro b; rfl
  | cons c rest ih =>
    intro b
    simp only [List.map_cons, countWordsAux, pyIsSpace_pyLowerChar, ih]

theorem countWords_pyLower (s : String) : countWords (pyLower s) = countWords s := by
  rw [countWords, countWords, pyLower]
  have h : (String.mk (s.toList.map pyLowerChar)).toList = s.toList.map pyLowerChar := rfl
  rw [h, countWordsAux_map_pyLower]

theorem foldl_best_stays (l : List (RhetoricalRole × ℚ)) :
    ∀ acc, (∀ q ∈ l, q.2 ≤ acc.2) →
      l.foldl (fun best q => if q.2 > best.2 then q else best) acc = acc := by
  induction l with
  | nil => intro acc _; rfl
  | cons q rest ih =>
    intro acc h
    rw [List.foldl_cons, if_neg (not_lt.mpr (h q (by simp)))]
    exact ih acc (fun r hr => h r (by simp [hr]))

theorem foldl_best_reaches (r₁ : RhetoricalRole) (v : ℚ)
    (l₂ : List (RhetoricalRole × ℚ)) (h₂ : ∀ q ∈ l₂, q.2 ≤ v) :
    ∀ l₁ : List (RhetoricalRole × ℚ), ∀ acc : RhetoricalRole × ℚ,
      (∀ q ∈ l₁, q.2 < v) → acc.2 < v →
      (l₁ ++ (r₁, v) :: l₂).foldl (fun best q => if q.2 > best.2 then q else best) acc =
        (r₁, v) := by
  intro l₁
  induction l₁ with
  | nil =>
    intro acc _ hacc
    rw [List.nil_append, List.foldl_cons, if_pos hacc]
    exact foldl_best_stays l₂ (r₁, v) h₂
  | cons q l₁' ih =>
    intro acc h₁ hacc
    rw [List.cons_append, List.foldl_cons]
    have hq : q.2 < v := h₁ q (by simp)
    by_cases hqa : q.2 > acc.2
    · rw [if_pos hqa]
      exact ih q (fun r hr => h₁ r (by simp [hr])) hq
    · rw [if_neg hqa]
      exact ih acc (fun r hr => h₁ r (by simp [hr])) hacc

theorem argmaxFirst_first_max (l₁ l₂ : List (RhetoricalRole × ℚ))
    (r₁ : RhetoricalRole) (v : ℚ)
    (h₁ : ∀ q ∈ l₁, q.2 < v) (h₂ : ∀ q ∈ l₂, q.2 ≤ v) :
    argmaxFirst (l₁ ++ (r₁, v) :: l₂) = some (r₁, v) := by
  cases l₁ with
  | nil =>
    rw [List.nil_append, argmaxFirst]
    rw [foldl_best_stays l₂ (r₁, v) h₂]
  | cons q l₁' =>
    rw [List.cons_append, argmaxFirst]
    rw [foldl_best_reaches r₁ v l₂ h₂ l₁' q
      (fun r hr => h₁ r (by simp [hr])) (h₁ q (by simp))]

theorem scoreEntry_bound (t : String) (P : List (RhetoricalRole × List (List (List Char))))
    (q : RhetoricalRole × ℚ) (hq : q ∈ P.filterMap (scoreEntry t)) :
    ∃ p ∈ P, q = (p.1, normScore t p.1) ∧ rawScore t p.1 > 0 := by
  rcases List.mem_filterMap.mp hq with ⟨p, hp, hpe⟩
  rw [scoreEntry] at hpe
  split at hpe
  · rename_i hpraw
    exact ⟨p, hp, (Option.some.inj hpe).symm, hpraw⟩
  · simp at hpe

/-- If the pattern table splits as `P₁ ++ (r₁, pats) :: P₂` where `r₁`
scored, every earlier role either scored zero or has a strictly smaller
normalized score, and every later role has a no-larger normalized score,
then detection returns `r₁` with its converted confidence. -/
theorem detect_first_max (t : String)
    (P₁ P₂ : List (RhetoricalRole × List (List (List Char))))
    (r₁ : RhetoricalRole) (pats : List (List (List Char)))
    (hP : rolePatterns = P₁ ++ (r₁, pats) :: P₂)
    (hraw : rawScore t r₁ > 0)
    (hb : ∀ p ∈ P₁, rawScore t p.1 = 0 ∨ normScore t p.1 < normScore t r₁)
    (ha : ∀ p ∈ P₂, normScore t p.1 ≤ normScore t r₁) :
    detect_rhetorical_role t =
      (r₁, if normScore t r₁ / 5 ≤ 1 then normScore t r₁ / 5 else 1) := by
  have hscores : roleScores t =
      P₁.filterMap (scoreEntry t) ++
        (r₁, normScore t r₁) :: P₂.filterMap (scoreEntry t) := by
    rw [roleScores, hP, List.filterMap_append, List.filterMap_cons]
    have he : scoreEntry t (r₁, pats) = some (r₁, normScore t r₁) := by
      rw [scoreEntry]
      exact if_pos hraw
    rw [he]
  have h₁ : ∀ q ∈ P₁.filterMap (scoreEntry t), q.2 < normScore t r₁ := by
    intro q hq
    rcases scoreEntry_bound t P₁ q hq with ⟨p, hp, hqe, hpraw⟩
    rcases hb p hp with h0 | hlt
    · omega
    · rw [hqe]
      exact hlt
  have h₂ : ∀ q ∈ P₂.filterMap (scoreEntry t), q.2 ≤ normScore t r₁ := by
    intro q hq
    rcases scoreEntry_bound t P₂ q hq with ⟨p, hp, hqe, hpraw⟩
    rw [hqe]
    exact ha p hp
  have hargmax : argmaxFirst (roleScores t) = some (r₁, normScore t r₁) := by
    rw [hscores]
    exact argmaxFirst_first_max _ _ _ _ h₁ h₂
  rw [detect_rhetorical_role, hargmax]
  dsimp only
  rw [if_neg ?hcond]
  case hcond =>
    rintro ⟨hclow, hwc⟩
    have hwcl : countWords (pyLower t) = countWords t := countWords_pyLower t
    have hd19 : max (countWords (pyLower t)) 1 ≤ 19 := by
      rw [hwcl]; omega
    have hd1 : 1 ≤ max (countWords (pyLower t)) 1 := by omega
    have hd0 : (0 : ℚ) < ((max (countWords (pyLower t)) 1 : ℕ) : ℚ) := by
      exact_mod_cast hd1
    have hd19' : ((max (countWords (pyLower t)) 1 : ℕ) : ℚ) ≤ 19 := by
      exact_mod_cast hd19
    have hr1 : (1 : ℚ) ≤ (rawScore t r₁ : ℚ) := by exact_mod_cast hraw
    have hv5 : (1 : ℚ) ≤ normScore t r₁ / 5 := by
      rw [normScore]
      rw [div_mul_eq_mul_div, div_div, le_div_iff (by positivity)]
      nlinarith
    have hconf : (1 : ℚ) ≤
        (if normScore t r₁ / 5 ≤ 1 then normScore t r₁ / 5 else 1) := by
      split
      · exact hv5
      · norm_num
    linarith

/-- C8: when two registered roles tie for the highest normalized score
(with positive raw scores) and no earlier-registered role matches or ties
that score, `_detect_rhetorical_role` returns the role registered first in
the pattern table — `role_scores` is built in pattern-declaration order and
Python's `max` keeps the first key attaining the maximum. -/
theorem detect_tie_first_declared (t : String) (r₁ r₂ : RhetoricalRole)
    (hm₁ : r₁ ∈ roleList) (hm₂ : r₂ ∈ roleList)
    (hlt : roleList.indexOf r₁ < roleList.indexOf r₂)
    (hr₁ : rawScore t r₁ > 0) (hr₂ : rawScore t r₂ > 0)
    (heq : normScore t r₁ = normScore t r₂)
    (hmax : ∀ r ∈ roleList, normScore t r ≤ normScore t r₁)
    (hfirst : ∀ r ∈ roleList, roleList.indexOf r < roleList.indexOf r₁ →
      rawScore t r = 0 ∨ normScore t r < normScore t r₁) :
    (detect_rhetorical_role t).1 = r₁ := by
  have hstep : detect_rhetorical_role t =
      (r₁, if normScore t r₁ / 5 ≤ 1 then normScore t r₁ / 5 else 1) := by
    cases r₁
    -- argument
    · refine detect_first_max t [] _ _ _ rfl hr₁ (by simp) ?_
      intro p hp
      fin_cases hp <;> exact hmax _ (by decide)
    -- example
    · refine detect_first_max t [(.argument, argumentPatterns)] _ _ _ rfl hr₁ ?_ ?_
      · intro p hp
        fin_cases hp <;> exact hfirst _ (by decide) (by decide)
      · intro p hp
        fin_cases hp <;> exact hmax _ (by decide)
    -- background
    · refine detect_first_max t
        [(.argument, argumentPatterns), (.example, examplePatterns)] _ _ _ rfl hr₁ ?_ ?_
      · intro p hp
        fin_cases hp <;> exact hfirst _ (by decide) (by decide)
      · intro p hp
        fin_cases hp <;> exact hmax _ (by decide)
    -- conclusion
    · refine detect_first_max t
        [(.argument, argumentPatterns), (.example, examplePatterns),
         (.background, backgroundPatterns)] _ _ _ rfl hr₁ ?_ ?_
      · intro p hp
        fin_cases hp <;> exact hfirst _ (by decide) (by decide)
      · intro p hp
        fin_cases hp <;> exact hmax _ (by decide)
    -- definition (last entry of the pattern table)
    · refine detect_first_max t
        [(.argument, argumentPatterns), (.example, examplePatterns),
         (.background, backgroundPatterns), (.conclusion, conclusionPatterns),
         (.methodology, methodologyPatterns), (.insight, insightPatterns),
         (.observation, observationPatterns)] _ _ _ rfl hr₁ ?_ (by simp)
      intro p hp
      fin_cases hp <;> exact hfirst _ (by decide) (by decide)
    -- methodology
    · refine detect_first_max t
        [(.argument, argumentPatterns), (.example, examplePatterns),
         (.background, backgroundPatterns), (.conclusion, conclusionPatterns)]
        _ _ _ rfl hr₁ ?_ ?_
      · intro p hp
        fin_cases hp <;> exact hfirst _ (by decide) (by decide)
      · intro p hp
        fin_cases hp <;> exact hmax _ (by decide)
    -- insight
    · refine detect_first_max t
        [(.argument, argumentPatterns), (.example, examplePatterns),
         (.background, backgroundPatterns), (.conclusion, conclusionPatterns),
         (.methodology, methodologyPatterns)] _ _ _ rfl hr₁ ?_ ?_
      · intro p hp
        fin_cases hp <;> exact hfirst _ (by decide) (by decide)
      · intro p hp
        fin_cases hp <;> exact hmax _ (by decide)
    -- observation
    · refine detect_first_max t
        [(.argument, argumentPatterns), (.example, examplePatterns),
         (.background, backgroundPatterns), (.conclusion, conclusionPatterns),
         (.methodology, methodologyPatterns), (.insight, insightPatterns)]
        _ _ _ rfl hr₁ ?_ ?_
      · intro p hp
        fin_cases hp <;> exact hfirst _ (by decide) (by decide)
      · intro p hp
        fin_cases hp <;> exact hmax _ (by decide)
    -- unknown
    · exact absurd hm₁ (by decide)
    -- insufficient_data
    · exact absurd hm₁ (by decide)
  rw [hstep]

/-- C8 witness: in `"therefore for instance"` the roles `argument` and
`example` tie (one match each over three words) and the first-declared
role `argument` wins. -/
theorem detect_tie_first_declared_witness :
    (detect_rhetorical_role "therefore for instance").1 = RhetoricalRole.argument :=
  detect_tie_first_declared "therefore for instance" .argument .example
    (by decide) (by decide) (by decide) (by decide!) (by decide!) (by decide!)
    (by decide!)
    (fun r hr hidx => by
      have h0 : List.indexOf RhetoricalRole.argument roleList = 0 := by decide
      rw [h0] at hidx
      exact absurd hidx (Nat.not_lt_zero _))

/-- C9 counterexample: in `"ABC then Machine Learning appears"` the
acronym `ABC` occurs first (index 0) and ties with the capitalized phrase
`Machine Learning` (index 9) at frequency 1, yet the returned tags list
`Machine Learning` before `ABC` — first-seen order in the text is not the
tie-break; phrase candidates precede acronym candidates. -/
theorem extract_tags_tie_not_text_order :
    extract_topic_tags "ABC then Machine Learning appears" =
        some ["Machine Learning", "ABC"] ∧
      tagCounts "ABC then Machine Learning appears" =
        [("Machine Learning", 1), ("ABC", 1)] ∧
      subPos "ABC" "ABC then Machine Learning appears" = some 0 ∧
      subPos "Machine Learning" "ABC then Machine Learning appears" = some 9 := by
  refine ⟨by decide, by decide, by decide, by decide⟩

end Cite





